import Mathlib

/-!
Shallow embedding of
`public/app/features/alerting/unified/components/contact-points/useContactPoints.tsx`
(Grafana alerting contact-point hooks) and proofs about its behaviour.

Conventions of the embedding:
* optional TS fields (`x?: T`) become `Option T`;
* JS string truthiness (`if (s)`) becomes `strTruthy`: `undefined` and `""`
  are falsy, every other string is truthy;
* the reactive query results of the data-fetching layer become the record
  `QueryResult` carrying the `isLoading` flag and the optional `data`;
* mutations become pure functions returning the request they would issue
  (`Option` when the code may issue no request at all);
* external collaborators that are not part of the file
  (`shouldUseK8sApi`, `getK8sNamespace`) are passed in as parameters.
-/

namespace ContactPoints

/-- JS truthiness of an optional string: `undefined` and `""` are falsy. -/
def strTruthy : Option String → Bool
  | none => false
  | some s => !(s == "")

/-- One integration config of a Grafana-managed contact point
(`GrafanaManagedReceiverConfig` in the alertmanager types): channel type,
settings, and the optional provenance marker. -/
structure GrafanaManagedReceiverConfig where
  type : String
  settings : List (String × String)
  provenance : Option String
deriving DecidableEq

/-- A contact point / receiver (`GrafanaManagedContactPoint`, which extends the
legacy `Receiver` shape with the optional `id` and `provisioned` fields). -/
structure Receiver where
  name : String
  grafana_managed_receiver_configs : Option (List GrafanaManagedReceiverConfig)
  id : Option String
  provisioned : Option Bool
deriving DecidableEq

/-- The `alertmanager_config` part of a legacy configuration document:
only the receiver list matters to the hooks in this file; the other fields
are carried through all writes unchanged. -/
structure AlertmanagerConfig where
  receivers : Option (List Receiver)
deriving DecidableEq

/-- The whole legacy configuration document (`AlertManagerCortexConfig`). -/
structure AlertManagerCortexConfig where
  alertmanager_config : AlertmanagerConfig
deriving DecidableEq

/-- Object metadata of a structured-API (k8s) receiver resource. `provenance`
stands for the provenance annotation of the entity. -/
structure K8sMetadata where
  name : Option String
  uid : Option String
  provenance : Option String
deriving DecidableEq

/-- The `spec` of a structured-API receiver resource. -/
structure K8sReceiverSpec where
  title : String
  integrations : List GrafanaManagedReceiverConfig
deriving DecidableEq

/-- A structured-API receiver resource
(`ComGithubGrafanaGrafanaPkgApisAlertingNotificationsV0Alpha1Receiver`,
abbreviated `K8sReceiver` in the source). `metadata` is optional because
`grafanaContactPointToK8sReceiver` omits it when no id is supplied; items
returned by the API always carry it. -/
structure K8sReceiver where
  metadata : Option K8sMetadata
  spec : K8sReceiverSpec
deriving DecidableEq

/-- Modelled from the spec: `isK8sEntityProvisioned` (from `utils/k8s/utils`,
not part of this file) reports whether the structured-API entity carries a
provenance marker ("Provenance: marker indicating a contact point is managed
externally"). -/
def isK8sEntityProvisioned (item : K8sReceiver) : Bool :=
  strTruthy (item.metadata.bind fun m => m.provenance)

/-- `parseK8sReceiver`: normalize a structured-API receiver resource into the
common contact-point shape. `id` is read from `metadata.uid`, the name from
`spec.title`, the integration configs from `spec.integrations`. -/
def parseK8sReceiver (item : K8sReceiver) : Receiver :=
  { id := item.metadata.bind fun m => m.uid
    name := item.spec.title
    provisioned := some (isK8sEntityProvisioned item)
    grafana_managed_receiver_configs := some item.spec.integrations }

/-- The per-item normalization applied by `useFetchGrafanaContactPoints` to the
legacy `/notifications/receivers` list: spread the item and set `provisioned`
to `grafana_managed_receiver_configs?.some((item) => item.provenance)`. -/
def legacyNormalize (item : Receiver) : Receiver :=
  { item with
    provisioned :=
      item.grafana_managed_receiver_configs.map fun cs =>
        cs.any fun c => strTruthy c.provenance }

/-- A result of the reactive data-fetching layer: the loading flag and the
(optional) data. -/
structure QueryResult (α : Type) where
  isLoading : Bool
  data : Option α
deriving DecidableEq

/-- Modelled from the spec: `enhanceContactPointsWithMetadata` (from
`./utils`, not part of this file) "produces an enriched contact point list
where each entry carries resolved status and display metadata"; status is
"looked up by name". We model the enrichment as pairing each contact point
with the status found under its name. -/
def enhanceContactPointsWithMetadata (status : Option (List (String × String)))
    (contactPoints : List Receiver) : List (Receiver × Option String) :=
  contactPoints.map fun cp =>
    (cp, status.bind fun st => (st.find? fun p => p.1 == cp.name).map fun p => p.2)

/-- The value produced by `useGrafanaContactPoints`: the spread of the list
response plus the `contactPoints` field. -/
structure GrafanaContactPointsView where
  isLoading : Bool
  data : Option (List Receiver)
  contactPoints : List (Receiver × Option String)
deriving DecidableEq

/-- The merge step of `useGrafanaContactPoints`: combine the OnCall
integrations response, the notifier-metadata response, the contact-point list
response and the status response.  `isLoading` is computed from the OnCall,
notifier and list responses; if it is set, or the list data is absent, the
hook reports `isLoading: true` with an empty list, otherwise it spreads the
list response and attaches the enriched contact points. -/
def useGrafanaContactPoints (onCallResponse alertNotifiers : QueryResult Unit)
    (contactPointsListResponse : QueryResult (List Receiver))
    (contactPointsStatusResponse : QueryResult (List (String × String))) :
    GrafanaContactPointsView :=
  let isLoading := onCallResponse.isLoading || alertNotifiers.isLoading ||
    contactPointsListResponse.isLoading
  if isLoading || contactPointsListResponse.data.isNone then
    { isLoading := true
      data := contactPointsListResponse.data
      contactPoints := [] }
  else
    { isLoading := contactPointsListResponse.isLoading
      data := contactPointsListResponse.data
      contactPoints :=
        enhanceContactPointsWithMetadata contactPointsStatusResponse.data
          (contactPointsListResponse.data.getD []) }

/-- Value of one hexadecimal digit, as used by percent-decoding. -/
def hexDigitVal (c : Char) : Option Nat :=
  if '0' ≤ c ∧ c ≤ '9' then some (c.toNat - '0'.toNat)
  else if 'a' ≤ c ∧ c ≤ 'f' then some (c.toNat - 'a'.toNat + 10)
  else if 'A' ≤ c ∧ c ≤ 'F' then some (c.toNat - 'A'.toNat + 10)
  else none

/-- Percent-decoding of a character list: `%XY` with two hex digits becomes
the character with code `16*X + Y`; everything else is kept.  This embeds
`decodeURIComponent` for the single-byte sequences the receiver names use. -/
def percentDecodeAux : List Char → List Char
  | [] => []
  | '%' :: a :: b :: rest =>
      match hexDigitVal a, hexDigitVal b with
      | some ha, some hb => Char.ofNat (16 * ha + hb) :: percentDecodeAux rest
      | _, _ => '%' :: percentDecodeAux (a :: b :: rest)
  | c :: rest => c :: percentDecodeAux rest

/-- Percent-decoding on strings (the embedding of `decodeURIComponent`). -/
def percentDecode (s : String) : String :=
  ⟨percentDecodeAux s.data⟩

/-- The match predicate of `useGetAlertmanagerContactPoint`:
`decodeURIComponent(receiver.name) === decodeURIComponent(name)`. -/
def receiverMatches (receiver : Receiver) (name : String) : Bool :=
  percentDecode receiver.name == percentDecode name

/-- The `selectFromResult` of `useGetAlertmanagerContactPoint`: find, in the
fetched configuration, the receiver whose percent-decoded name equals the
percent-decoded query name. -/
def useGetAlertmanagerContactPoint (data : Option AlertManagerCortexConfig)
    (name : String) : Option Receiver :=
  data.bind fun config =>
    config.alertmanager_config.receivers.bind fun rs =>
      rs.find? fun receiver => receiverMatches receiver name

/-- The legacy branch of `useDeleteContactPoint`: given the result of the
configuration fetch, either issue no write (no data) or write back the
configuration with every receiver named `name` removed (lodash `remove`
keeps exactly the elements that do not satisfy the predicate).  The returned
pair is the `updateAlertManager` payload `(selectedAlertmanager, config)`. -/
def deleteContactPointLegacy (alertmanager : String)
    (data : Option AlertManagerCortexConfig) (name : String) :
    Option (String × AlertManagerCortexConfig) :=
  match data with
  | none => none
  | some config =>
      some (alertmanager,
        { alertmanager_config :=
          { receivers :=
              config.alertmanager_config.receivers.map fun rs =>
                rs.filter fun receiver => !(receiver.name == name) } })

/-- The duplicate-name message of `useValidateContactPoint`. -/
def duplicateMessage (value : String) : String :=
  "Contact point already exists with name \"" ++ value ++ "\""

/-- `useValidateContactPoint`: for the structured (k8s) backend the validator
always yields no message; for the legacy backend it yields no message when
validation is skipped, and otherwise reports a duplicate exactly when some
receiver of the fetched configuration has a name strictly equal to the
candidate value. -/
def useValidateContactPoint (useK8sApi : Bool) (config : AlertManagerCortexConfig)
    (value : String) (skipValidation : Bool) : Option String :=
  if useK8sApi then none
  else if skipValidation then none
  else
    match config.alertmanager_config.receivers with
    | none => none
    | some rs =>
        if rs.any fun contactPoint => contactPoint.name == value then
          some (duplicateMessage value)
        else none

/-- `grafanaContactPointToK8sReceiver`: convert a contact point to a
structured-API receiver resource.  The metadata (with its `name` set to the
id) is only present when the id is truthy; the spec carries the title and
the integrations (`grafana_managed_receiver_configs || []`). -/
def grafanaContactPointToK8sReceiver (contactPoint : Receiver)
    (id : Option String) : K8sReceiver :=
  { metadata :=
      if strTruthy id then some { name := id, uid := none, provenance := none }
      else none
    spec :=
      { title := contactPoint.name
        integrations := contactPoint.grafana_managed_receiver_configs.getD [] } }

/-- The request issued by the structured-API branch of
`useCreateOrUpdateContactPoint`. -/
inductive K8sWriteAction where
  | create (ns : String) (receiver : K8sReceiver)
  | replace (name : String) (ns : String) (receiver : K8sReceiver)
  | noop
deriving DecidableEq

/-- Whether the action is a call to the create endpoint. -/
def K8sWriteAction.isCreate : K8sWriteAction → Bool
  | .create _ _ => true
  | _ => false

/-- Whether the action is a call to the replace endpoint. -/
def K8sWriteAction.isReplace : K8sWriteAction → Bool
  | .replace _ _ _ => true
  | _ => false

/-- The name addressing the replace endpoint, when the action is a replace. -/
def K8sWriteAction.targetName : K8sWriteAction → Option String
  | .replace n _ _ => some n
  | _ => none

/-- The structured-API branch of `useCreateOrUpdateContactPoint`: create when
the id is falsy, replace (addressed by the id) when the id and the original
name are both truthy, otherwise resolve without calling any endpoint. -/
def useCreateOrUpdateContactPointK8s (ns : String) (contactPoint : Receiver)
    (id originalName : Option String) : K8sWriteAction :=
  let contactPointToUse := grafanaContactPointToK8sReceiver contactPoint id
  if !(strTruthy id) then .create ns contactPointToUse
  else if strTruthy originalName then .replace (id.getD "") ns contactPointToUse
  else .noop

/-- Helper: an optional string is truthy exactly when it holds a nonempty
string. -/
theorem strTruthy_eq_true_iff (o : Option String) :
    strTruthy o = true ↔ ∃ s, o = some s ∧ s ≠ "" := by
  cases o <;> simp [strTruthy]

/-- C1 counterexample: with the OnCall, notifier and list fetches resolved
(the list with data) but the status fetch still loading, the enriched view
reports `isLoading = false`, refuting "isLoading is true whenever any one of
the four constituent fetches is still loading". -/
theorem useGrafanaContactPoints_statusLoading_counterexample :
    (⟨true, none⟩ : QueryResult (List (String × String))).isLoading = true ∧
    (useGrafanaContactPoints ⟨false, ()⟩ ⟨false, ()⟩ ⟨false, some []⟩
      ⟨true, none⟩).isLoading = false := by
  exact ⟨rfl, rfl⟩

/-- C1 (amended): the enriched view reports `isLoading = true` whenever any of
the OnCall-integrations, notifier-metadata or contact-point-list fetches is
still loading, even if the list fetch itself has completed, and also whenever
the list data is absent; the status fetch is not part of this disjunction. -/
theorem useGrafanaContactPoints_isLoading_amended
    (onCallResponse alertNotifiers : QueryResult Unit)
    (contactPointsListResponse : QueryResult (List Receiver))
    (contactPointsStatusResponse : QueryResult (List (String × String)))
    (h : onCallResponse.isLoading = true ∨ alertNotifiers.isLoading = true ∨
      contactPointsListResponse.isLoading = true ∨
      contactPointsListResponse.data = none) :
    (useGrafanaContactPoints onCallResponse alertNotifiers
      contactPointsListResponse contactPointsStatusResponse).isLoading = true := by
  unfold useGrafanaContactPoints
  rcases h with h | h | h | h <;> simp [h]

/-- C1 witness: the amended statement at a concrete input where the OnCall
fetch is loading while the list fetch has data. -/
theorem useGrafanaContactPoints_isLoading_amended_witness :
    (useGrafanaContactPoints ⟨true, ()⟩ ⟨false, ()⟩ ⟨false, some []⟩
      ⟨false, none⟩).isLoading = true :=
  useGrafanaContactPoints_isLoading_amended ⟨true, ()⟩ ⟨false, ()⟩
    ⟨false, some []⟩ ⟨false, none⟩ (Or.inl rfl)

/-- C2: on a legacy configuration whose receiver names are pairwise distinct
and which contains a receiver with the given name, the delete operation writes
back the configuration with exactly that receiver removed; every other
receiver is unchanged and keeps its original order. -/
theorem useDeleteContactPoint_legacy_removesExactlyOne
    (alertmanager name : String) (xs ys : List Receiver) (r : Receiver)
    (hname : r.name = name)
    (hnodup : ((xs ++ r :: ys).map Receiver.name).Nodup) :
    deleteContactPointLegacy alertmanager
      (some ⟨⟨some (xs ++ r :: ys)⟩⟩) name =
      some (alertmanager, ⟨⟨some (xs ++ ys)⟩⟩) := by
  rw [List.map_append, List.map_cons] at hnodup
  have hxs : ∀ x ∈ xs, ¬(x.name = name) := by
    intro x hx heq
    have hdis := (List.nodup_append.mp hnodup).2.2
    exact hdis (List.mem_map_of_mem Receiver.name hx)
      (by rw [heq, ← hname]; exact List.mem_cons_self _ _)
  have hys : ∀ y ∈ ys, ¬(y.name = name) := by
    intro y hy heq
    have hnd := (List.nodup_append.mp hnodup).2.1
    exact (List.nodup_cons.mp hnd).1
      (by rw [hname, ← heq]; exact List.mem_map_of_mem Receiver.name hy)
  have hfilter :
      ((xs ++ r :: ys).filter fun receiver => !(receiver.name == name)) =
        xs ++ ys := by
    rw [List.filter_append, List.filter_cons]
    have hxs' : (xs.filter fun receiver => !(receiver.name == name)) = xs :=
      List.filter_eq_self.mpr fun x hx => by simp [hxs x hx]
    have hys' : (ys.filter fun receiver => !(receiver.name == name)) = ys :=
      List.filter_eq_self.mpr fun y hy => by simp [hys y hy]
    simp [hname, hxs', hys']
  simp [deleteContactPointLegacy, hfilter]

/-- C2 witness: deleting `"b"` from the concrete receiver list
`["a", "b", "c"]` leaves `["a", "c"]`. -/
theorem useDeleteContactPoint_legacy_removesExactlyOne_witness :
    deleteContactPointLegacy "grafana"
      (some ⟨⟨some [⟨"a", none, none, none⟩, ⟨"b", none, none, none⟩,
        ⟨"c", none, none, none⟩]⟩⟩) "b" =
      some ("grafana", ⟨⟨some [⟨"a", none, none, none⟩,
        ⟨"c", none, none, none⟩]⟩⟩) :=
  useDeleteContactPoint_legacy_removesExactlyOne "grafana" "b"
    [⟨"a", none, none, none⟩] [⟨"c", none, none, none⟩]
    ⟨"b", none, none, none⟩ rfl (by decide)

/-- C3 counterexample: converting a contact point with
`grafanaContactPointToK8sReceiver` and parsing the result back with
`parseK8sReceiver` does not return the supplied id: the conversion stores the
id in `metadata.name` while the parser reads `metadata.uid`. -/
theorem k8sReceiver_roundTrip_id_counterexample :
    (parseK8sReceiver (grafanaContactPointToK8sReceiver
      ⟨"email receiver", some [], none, none⟩ (some "abc123"))).id ≠
      some "abc123" := by decide

/-- C3 (amended): for every contact point whose integration configs are
present, the round trip through `grafanaContactPointToK8sReceiver` and
`parseK8sReceiver` preserves the name and the integration configs, but the
parsed id is `none` (it is read from `metadata.uid`, which the conversion
never sets), not the supplied id. -/
theorem k8sReceiver_roundTrip_amended (cp : Receiver) (id : Option String)
    (cs : List GrafanaManagedReceiverConfig)
    (hcs : cp.grafana_managed_receiver_configs = some cs) :
    (parseK8sReceiver (grafanaContactPointToK8sReceiver cp id)).name = cp.name ∧
    (parseK8sReceiver (grafanaContactPointToK8sReceiver cp id)).grafana_managed_receiver_configs =
      cp.grafana_managed_receiver_configs ∧
    (parseK8sReceiver (grafanaContactPointToK8sReceiver cp id)).id = none := by
  refine ⟨rfl, ?_, ?_⟩
  · simp [parseK8sReceiver, grafanaContactPointToK8sReceiver, hcs]
  · cases htr : strTruthy id <;>
      simp [parseK8sReceiver, grafanaContactPointToK8sReceiver, htr]

/-- C3 witness: the amended round trip at a concrete contact point. -/
theorem k8sReceiver_roundTrip_amended_witness :
    (parseK8sReceiver (grafanaContactPointToK8sReceiver
      ⟨"email receiver", some [], none, none⟩ (some "abc123"))).name =
      "email receiver" :=
  (k8sReceiver_roundTrip_amended ⟨"email receiver", some [], none, none⟩
    (some "abc123") [] rfl).1

/-- C4: the lookup of a single contact point in the legacy configuration
matches a receiver exactly when its percent-decoded name equals the
percent-decoded query name; any receiver returned by the lookup satisfies
that equation, and the names `"a b"` and `"a%20b"` match in both
directions. -/
theorem nameLookup_percentDecoding :
    (∀ (r : Receiver) (q : String),
      receiverMatches r q = true ↔ percentDecode r.name = percentDecode q) ∧
    (∀ (data : Option AlertManagerCortexConfig) (q : String) (r : Receiver),
      useGetAlertmanagerContactPoint data q = some r →
        percentDecode r.name = percentDecode q) ∧
    receiverMatches ⟨"a b", none, none, none⟩ "a%20b" = true ∧
    receiverMatches ⟨"a%20b", none, none, none⟩ "a b" = true := by
  refine ⟨?_, ?_, by decide, by decide⟩
  · intro r q
    simp [receiverMatches]
  · intro data q r h
    unfold useGetAlertmanagerContactPoint at h
    rcases data with _ | config
    · simp at h
    · simp only [Option.some_bind] at h
      rcases hrs : config.alertmanager_config.receivers with _ | rs <;>
        rw [hrs] at h
      · simp at h
      · simp only [Option.some_bind] at h
        have := List.find?_some h
        simpa [receiverMatches] using this

/-- C4 witness: the lookup property applied to a concrete configuration in
which a receiver named `"a b"` is found under the query `"a%20b"`. -/
theorem nameLookup_percentDecoding_witness :
    percentDecode "a b" = percentDecode "a%20b" :=
  nameLookup_percentDecoding.2.1
    (some ⟨⟨some [⟨"a b", none, none, none⟩]⟩⟩) "a%20b"
    ⟨"a b", none, none, none⟩ (by decide)

/-- C5: the validator yields a (duplicate-name) message exactly when the
backend is the legacy one, validation is not skipped, and some receiver of
the current configuration has a name strictly equal to the candidate value;
being a total function into `Option String`, it always returns an optional
message and never throws. -/
theorem useValidateContactPoint_duplicate_iff
    (useK8sApi : Bool) (config : AlertManagerCortexConfig) (value : String)
    (skipValidation : Bool) :
    (∃ m, useValidateContactPoint useK8sApi config value skipValidation =
      some m) ↔
      (useK8sApi = false ∧ skipValidation = false ∧
        ∃ r ∈ config.alertmanager_config.receivers.getD [], r.name = value) := by
  cases useK8sApi with
  | true => simp [useValidateContactPoint]
  | false =>
    cases skipValidation with
    | true => simp [useValidateContactPoint]
    | false =>
      rcases hrs : config.alertmanager_config.receivers with _ | rs
      · simp [useValidateContactPoint, hrs]
      · by_cases h : (rs.any fun contactPoint => contactPoint.name == value) = true
        · simp only [useValidateContactPoint, hrs, h, if_true]
          simp only [List.any_eq_true, beq_iff_eq] at h
          simpa [hrs] using h
        · simp only [useValidateContactPoint, hrs, h, if_false]
          simp only [List.any_eq_true, beq_iff_eq] at h
          simpa [hrs] using h

/-- C5 witness: the validator reports a duplicate for a concrete
configuration already containing a receiver named `"slack"`. -/
theorem useValidateContactPoint_duplicate_iff_witness :
    ∃ m, useValidateContactPoint false
      ⟨⟨some [⟨"slack", none, none, none⟩]⟩⟩ "slack" false = some m :=
  (useValidateContactPoint_duplicate_iff false
    ⟨⟨some [⟨"slack", none, none, none⟩]⟩⟩ "slack" false).mpr
    ⟨rfl, rfl, ⟨"slack", none, none, none⟩, by decide, rfl⟩

/-- C6: both normalizers land in the common contact-point shape: a k8s item
normalized by `parseK8sReceiver` carries the name (from the spec title), the
id (from the metadata uid), a provisioned flag (always populated) and the
integration configs (always populated); a legacy item keeps its name, id and
configs, and its provisioned flag is populated exactly when its configs
are. -/
theorem normalizedContactPointShape (k : K8sReceiver) (item : Receiver) :
    (parseK8sReceiver k).name = k.spec.title ∧
    (parseK8sReceiver k).id = k.metadata.bind K8sMetadata.uid ∧
    (parseK8sReceiver k).provisioned = some (isK8sEntityProvisioned k) ∧
    (parseK8sReceiver k).grafana_managed_receiver_configs =
      some k.spec.integrations ∧
    (legacyNormalize item).name = item.name ∧
    (legacyNormalize item).id = item.id ∧
    (legacyNormalize item).grafana_managed_receiver_configs =
      item.grafana_managed_receiver_configs ∧
    ((legacyNormalize item).provisioned ≠ none ↔
      item.grafana_managed_receiver_configs ≠ none) := by
  refine ⟨rfl, rfl, rfl, rfl, rfl, rfl, rfl, ?_⟩
  rcases hc : item.grafana_managed_receiver_configs with _ | cs <;>
    simp [legacyNormalize, hc]

/-- C6 witness: the shape statement at a concrete k8s item and a concrete
legacy item. -/
theorem normalizedContactPointShape_witness :
    (parseK8sReceiver ⟨some ⟨none, some "u1", none⟩, ⟨"team email", []⟩⟩).name =
      "team email" :=
  (normalizedContactPointShape ⟨some ⟨none, some "u1", none⟩, ⟨"team email", []⟩⟩
    ⟨"slack", none, none, none⟩).1

/-- C7: the structured-API create-or-update operation calls the create
endpoint exactly when no identifier is supplied, calls the replace endpoint
exactly when both an identifier and an original name are supplied, and the
replace call is addressed by the supplied identifier.  Supplied strings are
assumed nonempty (the code treats the empty string like an absent value). -/
theorem createOrUpdate_k8s_branching (ns : String) (contactPoint : Receiver)
    (id originalName : Option String)
    (hid : id ≠ some "") (horig : originalName ≠ some "") :
    ((useCreateOrUpdateContactPointK8s ns contactPoint id
        originalName).isCreate = true ↔ id = none) ∧
    ((useCreateOrUpdateContactPointK8s ns contactPoint id
        originalName).isReplace = true ↔ (id ≠ none ∧ originalName ≠ none)) ∧
    (∀ s, id = some s →
      (useCreateOrUpdateContactPointK8s ns contactPoint id
        originalName).isReplace = true →
      (useCreateOrUpdateContactPointK8s ns contactPoint id
        originalName).targetName = some s) := by
  rcases id with _ | s
  · simp [useCreateOrUpdateContactPointK8s, strTruthy,
      K8sWriteAction.isCreate, K8sWriteAction.isReplace]
  · have hs : (s == "") = false :=
      beq_eq_false_iff_ne.mpr fun h => hid (by rw [h])
    rcases originalName with _ | t
    · simp [useCreateOrUpdateContactPointK8s, strTruthy, hs,
        K8sWriteAction.isCreate, K8sWriteAction.isReplace,
        K8sWriteAction.targetName]
    · have ht : (t == "") = false :=
        beq_eq_false_iff_ne.mpr fun h => horig (by rw [h])
      simp [useCreateOrUpdateContactPointK8s, strTruthy, hs, ht,
        K8sWriteAction.isCreate, K8sWriteAction.isReplace,
        K8sWriteAction.targetName]

/-- C7 witness: with a concrete identifier and original name supplied, the
operation issues a replace. -/
theorem createOrUpdate_k8s_branching_witness :
    ((useCreateOrUpdateContactPointK8s "default" ⟨"email", none, none, none⟩
        (some "uid1") (some "old name")).isReplace = true ↔
      ((some "uid1" : Option String) ≠ none ∧
        (some "old name" : Option String) ≠ none)) :=
  (createOrUpdate_k8s_branching "default" ⟨"email", none, none, none⟩
    (some "uid1") (some "old name") (by decide) (by decide)).2.1

/-- C8: when an identifier is present (a nonempty string) but no original
name is supplied, the structured-API create-or-update operation resolves
without calling the create endpoint or the replace endpoint. -/
theorem createOrUpdate_k8s_idWithoutOriginalName_noop (ns : String)
    (contactPoint : Receiver) (s : String) (hs : s ≠ "") :
    useCreateOrUpdateContactPointK8s ns contactPoint (some s) none =
      K8sWriteAction.noop := by
  have hs' : (s == "") = false := beq_eq_false_iff_ne.mpr hs
  simp [useCreateOrUpdateContactPointK8s, strTruthy, hs']

/-- C8 witness: the no-request outcome at a concrete identifier. -/
theorem createOrUpdate_k8s_idWithoutOriginalName_noop_witness :
    useCreateOrUpdateContactPointK8s "default" ⟨"email", none, none, none⟩
      (some "uid2") none = K8sWriteAction.noop :=
  createOrUpdate_k8s_idWithoutOriginalName_noop "default"
    ⟨"email", none, none, none⟩ "uid2" (by decide)

/-- C9: when the configuration fetch performed by the legacy delete
operation yields no data, the operation issues no configuration write. -/
theorem deleteContactPoint_legacy_noData_noWrite (alertmanager name : String) :
    deleteContactPointLegacy alertmanager none name = none := rfl

/-- C10: a contact point from the legacy list endpoint is marked provisioned
(flag strictly `true`) exactly when at least one of its receiver configs
carries a provenance marker (a nonempty provenance string). -/
theorem legacyProvisioned_iff (item : Receiver) :
    (legacyNormalize item).provisioned = some true ↔
      ∃ c ∈ item.grafana_managed_receiver_configs.getD [],
        ∃ p, c.provenance = some p ∧ p ≠ "" := by
  rcases hc : item.grafana_managed_receiver_configs with _ | cs <;>
    simp [legacyNormalize, hc, List.any_eq_true, strTruthy_eq_true_iff]

/-- C10 witness: a concrete contact point whose second config carries a
provenance marker is marked provisioned. -/
theorem legacyProvisioned_iff_witness :
    (legacyNormalize ⟨"email", some [⟨"email", [], none⟩,
      ⟨"webhook", [], some "api"⟩], none, none⟩).provisioned = some true :=
  (legacyProvisioned_iff ⟨"email", some [⟨"email", [], none⟩,
    ⟨"webhook", [], some "api"⟩], none, none⟩).mpr
    ⟨⟨"webhook", [], some "api"⟩, by decide, "api", rfl, by decide⟩

end ContactPoints
